import Mathlib

/-!
Shallow embedding of the password-strength engine of `src/app.py`:
`extract_features` (lines 46-63) and `predict_strength` (lines 66-122).

Conventions of the embedding:
* A password is a `String`.  The per-character tests `c.isupper()`,
  `c.islower()`, `c.isdigit()`, `c.isalnum()` are modelled by the
  Unicode-aware predicates `pyIsUpper`, `pyIsLower`, `pyIsDigit`,
  `pyIsAlnum` below (exact on ASCII and on the CJK Unified Ideographs
  block, which Python treats as uncased alphabetic characters), and
  `s.lower()` by `str_lower` (a per-character ASCII case map).
* Python float division is modelled over `ℚ`.
* The classifier artifact is a pair of opaque capabilities, each of which may
  raise: `scaler.transform` becomes `Scaler : Features → Except String (List ℚ)`
  and `model.predict(...)[0]` followed by the total conversion `str(...)`
  becomes `Model : List ℚ → Except String String`.
* The `try`/`except` of `predict_strength` is modelled at the only operations
  inside it that can raise — the scaler/model invocations; the handler
  returns the sentinel label "unknown" (line 122).
-/

/-- Python `s.lower()`: per-character lowercasing (ASCII case map, on which
Python and Lean agree; same result as `String.toLower`, but stated directly
on the character list). -/
def str_lower (s : String) : String := ⟨s.data.map Char.toLower⟩

/-- Python `c.isupper()`: cased uppercase letters.  Exact on ASCII; the
other code points this development evaluates (CJK ideographs) are uncased,
hence not upper in Python either. -/
def pyIsUpper (c : Char) : Bool := decide (65 ≤ c.toNat ∧ c.toNat ≤ 90)

/-- Python `c.islower()`: cased lowercase letters, exact on ASCII as above. -/
def pyIsLower (c : Char) : Bool := decide (97 ≤ c.toNat ∧ c.toNat ≤ 122)

/-- Python `c.isdigit()`: decimal digits, exact on ASCII as above. -/
def pyIsDigit (c : Char) : Bool := decide (48 ≤ c.toNat ∧ c.toNat ≤ 57)

/-- Python `c.isalnum()`, Unicode-aware: alphabetic or numeric characters.
Modelled exactly on ASCII and on the CJK Unified Ideographs block
U+4E00..U+9FFF, whose characters are alphabetic in Python — so alphanumeric —
yet neither upper, lower, nor digits.  Code points outside these ranges are
classified non-alphanumeric; no statement in this development evaluates the
predicates outside the exact ranges. -/
def pyIsAlnum (c : Char) : Bool :=
  pyIsUpper c || pyIsLower c || pyIsDigit c ||
    decide (0x4E00 ≤ c.toNat ∧ c.toNat ≤ 0x9FFF)

/-- Feature record built by `extract_features` (src/app.py lines 46-63).
`common_pattern` is stored as `Bool` (the source stores `int(bool(...))`,
i.e. 0 or 1). -/
structure Features where
  length : ℕ
  upper : ℕ
  lower : ℕ
  digits : ℕ
  special : ℕ
  digit_ratio : ℚ
  special_ratio : ℚ
  upper_ratio : ℚ
  lower_ratio : ℚ
  common_pattern : Bool

/-- src/app.py lines 46-63: counts of character classes, the four ratio
features guarded by `max(1, length)`, and the case-insensitive substring
search `re.search(r'123|password|qwerty|abc', password.lower())`. -/
def extract_features (password : String) : Features :=
  let chars := password.data
  let length := chars.length
  let upper := (chars.filter fun c => pyIsUpper c).length
  let lower := (chars.filter fun c => pyIsLower c).length
  let digits := (chars.filter fun c => pyIsDigit c).length
  let special := (chars.filter fun c => !pyIsAlnum c).length
  { length := length
    upper := upper
    lower := lower
    digits := digits
    special := special
    digit_ratio := (digits : ℚ) / ((max 1 length : ℕ) : ℚ)
    special_ratio := (special : ℚ) / ((max 1 length : ℕ) : ℚ)
    upper_ratio := (upper : ℚ) / ((max 1 length : ℕ) : ℚ)
    lower_ratio := (lower : ℚ) / ((max 1 length : ℕ) : ℚ)
    common_pattern :=
      (["123", "password", "qwerty", "abc"] : List String).any fun p =>
        decide (p.data <:+: (str_lower password).data) }

/-- The scaler capability: `scaler.transform` on the one-row feature frame;
it may raise, hence `Except`. -/
abbrev Scaler : Type := Features → Except String (List ℚ)

/-- The model capability: `model.predict(scaled)[0]` followed by the total
string conversion `str(...)` of line 101; it may raise, hence `Except`. -/
abbrev Model : Type := List ℚ → Except String String

/-- Lines 96-98: scale the features, then ask the model; the first raised
exception aborts the consult. -/
def consult (m : Model) (s : Scaler) (f : Features) : Except String String :=
  (s f).bind m

/-- src/app.py line 79: the exact weak-password denylist. -/
def common_weak : List String :=
  ["password", "12345", "qwerty", "abc123", "123456", "12345678", "123456789"]

/-- The complexity threshold shared by the fallback strong rule (lines 86-87)
and RULE 3 (lines 114-115). -/
abbrev strong_bar (f : Features) : Prop :=
  12 ≤ f.length ∧ 2 ≤ f.digits ∧ 1 ≤ f.special ∧ 1 ≤ f.upper ∧ 1 ≤ f.lower

/-- The medium threshold of the rule fallback (lines 89-90). -/
abbrev medium_bar (f : Features) : Prop :=
  8 ≤ f.length ∧ 1 ≤ f.digits ∧ (1 ≤ f.upper ∨ 1 ≤ f.special)

/-- Lines 84-93: rule-based prediction used when model or scaler is `None`. -/
def rule_fallback (f : Features) : String :=
  if strong_bar f then "strong"
  else if medium_bar f then "medium"
  else "weak"

/-- Lines 104-111: map the lowercased raw prediction to a consistent label;
`none` when no synonym matches. -/
def normalize_label (pred : String) : Option String :=
  if pred = "very_weak" ∨ pred = "very weak" then some "very_weak"
  else if pred = "weak" then some "weak"
  else if pred = "medium" ∨ pred = "moderate" then some "medium"
  else if pred = "strong" ∨ pred = "good" then some "strong"
  else none

/-- Lines 96-122: the statistical consult.  An exception from the scaler or
model is caught by the `except` handler, which returns "unknown" (line 122).
On success the raw prediction is lowercased and normalized (lines 100-111);
if unrecognized, RULE 3 (lines 113-116) may return "strong", and line 118
resolves what is left (necessarily to "weak", since every recognized label
was already returned). -/
def consult_label (f : Features) (m : Model) (s : Scaler) : String :=
  match consult m s f with
  | Except.error _ => "unknown"
  | Except.ok raw =>
    let pred := str_lower raw
    match normalize_label pred with
    | some lab => lab
    | none =>
      if strong_bar f then "strong"
      else if pred = "very_weak" ∨ pred = "weak" ∨ pred = "medium" ∨ pred = "strong"
        then pred
      else "weak"

/-- src/app.py lines 66-122: the full decision procedure.  Order: empty check
(line 67), RULE 1 length < 6 (line 75), RULE 2 exact denylist (lines 79-81),
availability check `model is None or scaler is None` (line 84) choosing
between the rule fallback (lines 86-93) and the statistical consult. -/
def predict_strength (password : String) (model : Option Model)
    (scaler : Option Scaler) : String :=
  if password = "" then "very_weak"
  else
    let f := extract_features password
    let pw_lower := str_lower password
    if f.length < 6 then "very_weak"
    else if pw_lower ∈ common_weak then "very_weak"
    else
      match model, scaler with
      | some m, some s => consult_label f m s
      | _, _ => rule_fallback f

/-- The complete rules-only behaviour of `predict_strength` when the
availability check fails, written out as a single ladder (for the amended
form of the fallback-ladder claim). -/
def rules_only_label (password : String) : String :=
  let f := extract_features password
  if password = "" ∨ f.length < 6 then "very_weak"
  else if (str_lower password) ∈ common_weak then "very_weak"
  else if strong_bar f then "strong"
  else if medium_bar f then "medium"
  else "weak"

/-- Modelled from the spec: the fallback rule ladder exactly as §4.2 step 5
of the spec states it — very_weak if length ≤ 4 or denylisted or
common_pattern; weak if length ≤ 6 or any of digits, upper, special is zero;
strong past a high bar (≥12, d≥2, s≥2, u≥2, l≥3) or a relaxed bar
(≥10, d≥1, s≥1, u≥1, l≥4); otherwise weak.  Used only to compare the spec's
ladder with the code's. -/
def spec_fallback_ladder (password : String) : String :=
  let f := extract_features password
  if f.length ≤ 4 ∨ (str_lower password) ∈ common_weak ∨ f.common_pattern then "very_weak"
  else if f.length ≤ 6 ∨ f.digits = 0 ∨ f.upper = 0 ∨ f.special = 0 then "weak"
  else if (12 ≤ f.length ∧ 2 ≤ f.digits ∧ 2 ≤ f.special ∧ 2 ≤ f.upper ∧ 3 ≤ f.lower) ∨
      (10 ≤ f.length ∧ 1 ≤ f.digits ∧ 1 ≤ f.special ∧ 1 ≤ f.upper ∧ 4 ≤ f.lower)
    then "strong"
  else "weak"

/-! ## Basic lemmas about the embedding -/

theorem extract_features_length (pw : String) :
    (extract_features pw).length = pw.length := rfl

/-- Every ASCII character falls in exactly one of the four classes counted
by `extract_features`: uppercase, lowercase, digit, or not alphanumeric.
Outside ASCII this fails in Python (uncased alphabetic characters fall in no
class), which is what the partition counterexample exhibits. -/
theorem char_class_partition (c : Char) (h : c.toNat ≤ 127) :
    (if pyIsUpper c then 1 else 0) + (if pyIsLower c then 1 else 0) +
      (if pyIsDigit c then 1 else 0) + (if !pyIsAlnum c then 1 else 0) = 1 := by
  simp only [pyIsUpper, pyIsLower, pyIsDigit, pyIsAlnum]
  split_ifs <;> simp_all <;> omega

theorem char_counts_sum (l : List Char) (h : ∀ c ∈ l, c.toNat ≤ 127) :
    (l.filter fun c => pyIsUpper c).length + (l.filter fun c => pyIsLower c).length +
      (l.filter fun c => pyIsDigit c).length +
      (l.filter fun c => !pyIsAlnum c).length = l.length := by
  induction l with
  | nil => rfl
  | cons c t ih =>
    have hc := char_class_partition c (h c (List.mem_cons_self c t))
    have ht := ih fun x hx => h x (List.mem_cons_of_mem c hx)
    simp only [List.filter_cons, List.length_cons]
    split_ifs at hc ⊢ <;> simp_all <;> omega

theorem extract_features_upper (pw : String) :
    (extract_features pw).upper = (pw.data.filter fun c => pyIsUpper c).length := rfl

theorem extract_features_lower (pw : String) :
    (extract_features pw).lower = (pw.data.filter fun c => pyIsLower c).length := rfl

theorem extract_features_digits (pw : String) :
    (extract_features pw).digits = (pw.data.filter fun c => pyIsDigit c).length := rfl

theorem extract_features_special (pw : String) :
    (extract_features pw).special = (pw.data.filter fun c => !pyIsAlnum c).length := rfl

-- A common bound: each ratio is count / max(1, length) with count ≤ length.
theorem ratio_in_unit_interval (a b : ℕ) (hab : a ≤ b) :
    0 ≤ (a : ℚ) / ((max 1 b : ℕ) : ℚ) ∧ (a : ℚ) / ((max 1 b : ℕ) : ℚ) ≤ 1 := by
  have hpos : (0 : ℚ) < ((max 1 b : ℕ) : ℚ) := by
    have : 1 ≤ max 1 b := le_max_left 1 b
    exact_mod_cast lt_of_lt_of_le one_pos (by exact_mod_cast this)
  constructor
  · exact div_nonneg (by positivity) hpos.le
  · rw [div_le_one hpos]
    exact_mod_cast le_trans hab (le_max_right 1 b)

theorem rule_fallback_cases (f : Features) :
    rule_fallback f = "strong" ∨ rule_fallback f = "medium" ∨ rule_fallback f = "weak" := by
  unfold rule_fallback
  split_ifs <;> simp

theorem normalize_label_mem (p l : String) (h : normalize_label p = some l) :
    l = "very_weak" ∨ l = "weak" ∨ l = "medium" ∨ l = "strong" := by
  unfold normalize_label at h
  split_ifs at h <;> simp_all

theorem normalize_label_none (p : String) (h : normalize_label p = none) :
    ¬(p = "very_weak" ∨ p = "weak" ∨ p = "medium" ∨ p = "strong") := by
  unfold normalize_label at h
  split_ifs at h <;> tauto

theorem consult_label_mem (f : Features) (m : Model) (s : Scaler) :
    consult_label f m s ∈
      (["very_weak", "weak", "medium", "strong", "unknown"] : List String) := by
  rcases hc : consult m s f with e | raw
  · simp [consult_label, hc]
  · simp only [consult_label, hc]
    cases hn : normalize_label (str_lower raw) with
    | some lab =>
      rcases normalize_label_mem _ _ hn with h | h | h | h <;> simp [h]
    | none =>
      split_ifs with h1 h2
      · simp
      · rcases h2 with h | h | h | h <;> simp [h]
      · simp

theorem consult_label_unknown_iff (f : Features) (m : Model) (s : Scaler) :
    consult_label f m s = "unknown" ↔ ∃ e, consult m s f = Except.error e := by
  rcases hc : consult m s f with e | raw
  · simp [consult_label, hc]
  · simp only [consult_label, hc]
    constructor
    · intro h
      exfalso
      revert h
      cases hn : normalize_label (str_lower raw) with
      | some lab =>
        rcases normalize_label_mem _ _ hn with h | h | h | h <;> simp [h]
      | none =>
        split_ifs with h1 h2
        · simp
        · rcases h2 with h | h | h | h <;> simp [h]
        · simp
    · rintro ⟨e, he⟩
      exact absurd he (by simp)

/-! ## Claim theorems -/

/-- C5 counterexample: the partition invariant fails on non-ASCII input.
The CJK characters of "中中中" are alphanumeric in Python (`isalnum()` is
true) yet neither upper, lower, nor digits, so all four counts are 0 while
the length is 3. -/
theorem counts_partition_cex :
    (extract_features "中中中").upper + (extract_features "中中中").lower +
      (extract_features "中中中").digits + (extract_features "中中中").special = 0 ∧
      "中中中".length = 3 :=
  ⟨by decide, by decide⟩

/-- C5 amended: over passwords of ASCII characters, the four character-class
counts of `extract_features` sum exactly to the password length — each ASCII
character counts as exactly one of uppercase, lowercase, digit, or special
(not alphanumeric).  Non-ASCII alphanumerics without case (and Unicode
numerics outside the decimal digits) fall in no class, so the sum can drop
below the length there. -/
theorem extract_features_counts_partition (pw : String)
    (h : ∀ c ∈ pw.data, c.toNat ≤ 127) :
    (extract_features pw).upper + (extract_features pw).lower +
      (extract_features pw).digits + (extract_features pw).special = pw.length := by
  rw [extract_features_upper, extract_features_lower, extract_features_digits,
    extract_features_special]
  exact char_counts_sum pw.data h

/-- C5 witness: the partition holds on the ASCII password "Aa1!xyz". -/
theorem extract_features_counts_partition_witness :
    (∀ c ∈ "Aa1!xyz".data, c.toNat ≤ 127) ∧
      (extract_features "Aa1!xyz").upper + (extract_features "Aa1!xyz").lower +
        (extract_features "Aa1!xyz").digits + (extract_features "Aa1!xyz").special =
        "Aa1!xyz".length :=
  ⟨by decide, extract_features_counts_partition "Aa1!xyz" (by decide)⟩

/-- C8: every ratio feature of `extract_features` lies in the closed interval
from 0 to 1, and on the empty string each ratio equals 0 (the `max(1, length)`
guard makes the divisor 1, so no division by zero can occur). -/
theorem extract_features_ratio_bounds :
    (∀ pw : String,
      (0 ≤ (extract_features pw).digit_ratio ∧ (extract_features pw).digit_ratio ≤ 1) ∧
      (0 ≤ (extract_features pw).special_ratio ∧ (extract_features pw).special_ratio ≤ 1) ∧
      (0 ≤ (extract_features pw).upper_ratio ∧ (extract_features pw).upper_ratio ≤ 1) ∧
      (0 ≤ (extract_features pw).lower_ratio ∧ (extract_features pw).lower_ratio ≤ 1)) ∧
    ((extract_features "").digit_ratio = 0 ∧ (extract_features "").special_ratio = 0 ∧
      (extract_features "").upper_ratio = 0 ∧ (extract_features "").lower_ratio = 0) := by
  constructor
  · intro pw
    refine ⟨?_, ?_, ?_, ?_⟩ <;>
      exact ratio_in_unit_interval _ _ (List.length_filter_le _ pw.data)
  · refine ⟨?_, ?_, ?_, ?_⟩ <;> norm_num [extract_features]

/-- C7: any password shorter than the configured minimum length 6 (the empty
string included) is classified very_weak regardless of the loaded artifact;
the length short-circuit fires before any statistical consult. -/
theorem short_password_very_weak (pw : String) (mo : Option Model) (so : Option Scaler)
    (h : pw.length < 6) : predict_strength pw mo so = "very_weak" := by
  have hf : (extract_features pw).length < 6 := by
    rw [extract_features_length]; exact h
  simp only [predict_strength]
  split_ifs <;> rfl

/-- C7 witness: the length-3 password "ab1" is very_weak even with an
artifact loaded that would predict strong. -/
theorem short_password_very_weak_witness :
    "ab1".length < 6 ∧
      predict_strength "ab1" (some fun _ => Except.ok "strong")
        (some fun _ => Except.ok []) = "very_weak" :=
  ⟨by decide, short_password_very_weak "ab1" _ _ (by decide)⟩

/-- C6: any password whose lowercased form exactly equals a denylist entry is
classified very_weak, for every artifact (present or absent) and regardless
of composition: the rule fires before the statistical consult. -/
theorem denylist_very_weak (pw : String) (mo : Option Model) (so : Option Scaler)
    (h : str_lower pw ∈ common_weak) : predict_strength pw mo so = "very_weak" := by
  simp only [predict_strength]
  split_ifs <;> rfl

/-- C6 witness: "PASSWORD" (uppercase) is denylisted case-insensitively and
classified very_weak even with an artifact loaded that would predict strong. -/
theorem denylist_very_weak_witness :
    str_lower "PASSWORD" ∈ common_weak ∧
      predict_strength "PASSWORD" (some fun _ => Except.ok "strong")
        (some fun _ => Except.ok []) = "very_weak" :=
  ⟨by decide, denylist_very_weak "PASSWORD" _ _ (by decide)⟩

/-- C9: classification and feature extraction are deterministic — two calls
with the same password and the same loaded artifact give the same label and
the same feature record (both are pure functions of their arguments). -/
theorem classify_deterministic (pw : String) (mo : Option Model) (so : Option Scaler) :
    predict_strength pw mo so = predict_strength pw mo so ∧
      extract_features pw = extract_features pw :=
  ⟨rfl, rfl⟩

/-- C3 counterexample: the code's no-artifact fallback does not follow the
spec's rule ladder.  On "Passw0rd" (length 8, one digit, one uppercase, no
special character) the code returns medium, while the spec's ladder — special
count is zero — returns weak. -/
theorem fallback_ladder_cex :
    predict_strength "Passw0rd" none none = "medium" ∧
      spec_fallback_ladder "Passw0rd" = "weak" :=
  ⟨by decide, by decide⟩

/-- C3 amended: with no classifier artifact (model or scaler absent),
`predict_strength` follows the code's own ladder `rules_only_label`:
very_weak if empty, shorter than 6, or exactly denylisted; strong if
length ≥ 12, digits ≥ 2, special ≥ 1, upper ≥ 1, lower ≥ 1; medium if
length ≥ 8, digits ≥ 1 and (upper ≥ 1 or special ≥ 1); otherwise weak. -/
theorem no_artifact_rules_ladder (pw : String) (mo : Option Model) (so : Option Scaler)
    (h : mo = none ∨ so = none) :
    predict_strength pw mo so = rules_only_label pw := by
  by_cases h1 : pw = ""
  · subst h1
    simp [predict_strength, rules_only_label]
  · rcases mo with _ | m <;> rcases so with _ | s
    case neg.some.some =>
      rcases h with h | h <;> exact Option.noConfusion h
    all_goals
      by_cases h2 : (extract_features pw).length < 6
      · simp [predict_strength, rules_only_label, h1, h2]
      · by_cases h3 : str_lower pw ∈ common_weak
        · simp [predict_strength, rules_only_label, h1, h2, h3]
        · simp [predict_strength, rules_only_label, rule_fallback, h1, h2, h3]

/-- C3 witness: in rules-only mode the amended ladder gives weak on
"abcdEFGH" (length 8, no digits, no special), as the spec's example says. -/
theorem no_artifact_rules_ladder_witness :
    ((none : Option Model) = none ∨ (none : Option Scaler) = none) ∧
      predict_strength "abcdEFGH" none none = rules_only_label "abcdEFGH" ∧
      rules_only_label "abcdEFGH" = "weak" :=
  ⟨Or.inl rfl, no_artifact_rules_ladder "abcdEFGH" none none (Or.inl rfl), by decide⟩

/-- C10: in rules-only mode, a password of length at least 6 that is not
denylisted, misses the strong bar, but has length ≥ 8, a digit, and an
uppercase letter or a special character, is classified medium. -/
theorem fallback_medium_label (pw : String) (mo : Option Model) (so : Option Scaler)
    (hns : mo = none ∨ so = none) (h6 : 6 ≤ pw.length)
    (hdl : str_lower pw ∉ common_weak)
    (hnb : ¬ strong_bar (extract_features pw))
    (hm : 8 ≤ (extract_features pw).length ∧ 1 ≤ (extract_features pw).digits ∧
      (1 ≤ (extract_features pw).upper ∨ 1 ≤ (extract_features pw).special)) :
    predict_strength pw mo so = "medium" := by
  have hne : ¬ pw = "" := by
    intro he; subst he; exact absurd h6 (by decide)
  have hlen : ¬ (extract_features pw).length < 6 := by
    rw [extract_features_length]; omega
  rw [no_artifact_rules_ladder pw mo so hns]
  simp only [rules_only_label]
  rw [if_neg (by tauto), if_neg hdl, if_neg hnb, if_pos hm]

/-- C10 witness: "Summer2024" (length 10, four digits, one uppercase, no
special) is medium in rules-only mode. -/
theorem fallback_medium_label_witness :
    (6 ≤ "Summer2024".length ∧ str_lower "Summer2024" ∉ common_weak ∧
      ¬ strong_bar (extract_features "Summer2024") ∧
      8 ≤ (extract_features "Summer2024").length ∧
      1 ≤ (extract_features "Summer2024").digits ∧
      (1 ≤ (extract_features "Summer2024").upper ∨
        1 ≤ (extract_features "Summer2024").special)) ∧
    predict_strength "Summer2024" none none = "medium" :=
  ⟨⟨by decide, by decide, by decide, by decide, by decide, by decide⟩,
    fallback_medium_label "Summer2024" none none (Or.inl rfl) (by decide) (by decide)
      (by decide) ⟨by decide, by decide, by decide⟩⟩

/-- C1 counterexample: the strong override does not preempt the model.
"Tr0ub4dor&3xyz" meets the complexity bar (length 14, 3 digits, 1 special,
1 uppercase, lowercase present) and escapes the earlier rules, yet with a
loaded artifact whose model predicts "weak" the classifier returns weak, not
strong: the recognized model output wins over the override. -/
theorem strong_override_cex :
    strong_bar (extract_features "Tr0ub4dor&3xyz") ∧
      str_lower "Tr0ub4dor&3xyz" ∉ common_weak ∧
      6 ≤ "Tr0ub4dor&3xyz".length ∧
      predict_strength "Tr0ub4dor&3xyz"
        (some fun _ => Except.ok "weak") (some fun _ => Except.ok []) = "weak" :=
  ⟨by decide, by decide, by decide, by decide⟩

/-- C1 amended: the strong override is evaluated after the statistical
consult, not before it, and preempts only output the normalization does not
recognize: when the password meets the complexity bar, escapes the earlier
rules, and the consult succeeds with a prediction whose lowercased form
matches no known label, the result is strong. -/
theorem strong_override_after_consult (pw : String) (m : Model) (s : Scaler)
    (raw : String)
    (hb : strong_bar (extract_features pw))
    (hdl : str_lower pw ∉ common_weak)
    (hc : consult m s (extract_features pw) = Except.ok raw)
    (hn : normalize_label (str_lower raw) = none) :
    predict_strength pw (some m) (some s) = "strong" := by
  have h12 := hb.1
  have hne : ¬ pw = "" := by
    intro he; subst he
    rw [extract_features_length] at h12
    exact absurd h12 (by decide)
  have hlen : ¬ (extract_features pw).length < 6 := by omega
  simp only [predict_strength]
  rw [if_neg hne, if_neg hlen, if_neg hdl]
  simp only [consult_label, hc, hn]
  rw [if_pos hb]

/-- C1 witness: "Aa1!Aa1!Aa1!" meets the bar and an artifact answering the
unrecognized label "mystery" yields strong. -/
theorem strong_override_after_consult_witness :
    (strong_bar (extract_features "Aa1!Aa1!Aa1!") ∧
      str_lower "Aa1!Aa1!Aa1!" ∉ common_weak ∧
      consult (fun _ => Except.ok "mystery") (fun _ => Except.ok [])
        (extract_features "Aa1!Aa1!Aa1!") = Except.ok "mystery" ∧
      normalize_label (str_lower "mystery") = none) ∧
    predict_strength "Aa1!Aa1!Aa1!" (some fun _ => Except.ok "mystery")
      (some fun _ => Except.ok []) = "strong" :=
  ⟨⟨by decide, by decide, rfl, by decide⟩,
    strong_override_after_consult "Aa1!Aa1!Aa1!" _ _ "mystery"
      (by decide) (by decide) rfl (by decide)⟩

/-- C4 counterexample: an unrecognized model prediction does not always fall
back to weak.  On "Str0ngP@ssphrase99!" — which meets the RULE 3 complexity
bar — the unrecognized prediction "gibberish" yields strong, not weak. -/
theorem unrecognized_default_cex :
    normalize_label (str_lower "gibberish") = none ∧
      predict_strength "Str0ngP@ssphrase99!"
        (some fun _ => Except.ok "gibberish") (some fun _ => Except.ok []) = "strong" :=
  ⟨by decide, by decide⟩

/-- C4 amended: when the consult executes and the lowercased raw prediction
matches no recognized label, the classifier never propagates the raw value:
it returns strong when the password meets the RULE 3 complexity bar and the
safe default weak otherwise. -/
theorem unrecognized_prediction_resolution (pw : String) (m : Model) (s : Scaler)
    (raw : String)
    (hne : pw ≠ "") (hlen : ¬ (extract_features pw).length < 6)
    (hdl : str_lower pw ∉ common_weak)
    (hc : consult m s (extract_features pw) = Except.ok raw)
    (hn : normalize_label (str_lower raw) = none) :
    predict_strength pw (some m) (some s) =
      (if strong_bar (extract_features pw) then "strong" else "weak") := by
  simp only [predict_strength]
  rw [if_neg hne, if_neg hlen, if_neg hdl]
  simp only [consult_label, hc, hn]
  by_cases hb : strong_bar (extract_features pw)
  · rw [if_pos hb, if_pos hb]
  · rw [if_neg hb, if_neg hb, if_neg (normalize_label_none _ hn)]

/-- C4 witness: on "abcdefg9" (below the complexity bar) the unrecognized
prediction "odd" resolves to the safe default weak. -/
theorem unrecognized_prediction_resolution_witness :
    ("abcdefg9" ≠ "" ∧ ¬ (extract_features "abcdefg9").length < 6 ∧
      str_lower "abcdefg9" ∉ common_weak ∧
      normalize_label (str_lower "odd") = none) ∧
    predict_strength "abcdefg9" (some fun _ => Except.ok "odd")
        (some fun _ => Except.ok []) =
      (if strong_bar (extract_features "abcdefg9") then "strong" else "weak") ∧
    ¬ strong_bar (extract_features "abcdefg9") :=
  ⟨⟨by decide, by decide, by decide, by decide⟩,
    unrecognized_prediction_resolution "abcdefg9" _ _ "odd" (by decide) (by decide)
      (by decide) rfl (by decide), by decide⟩

/-- C2 counterexample: an exception during the consult is caught but does not
fall through to the fallback ladder — the classifier returns the sentinel
"unknown", which is not one of the strength labels.  Here the model raises on
"abcdefg1", a password that escapes every pre-consult rule. -/
theorem consult_exception_unknown_cex :
    predict_strength "abcdefg1" (some fun _ => Except.error "boom")
        (some fun _ => Except.ok []) = "unknown" ∧
      ("unknown" : String) ∉ (["very_weak", "weak", "medium", "strong"] : List String) :=
  ⟨by decide, by decide⟩

/-- C2 amended: `predict_strength` is total and never raises — it always
returns one of very_weak, weak, medium, strong, or the sentinel "unknown".
Exceptions in the consult are caught, but the handler returns "unknown"
instead of falling through to the fallback ladder: "unknown" appears exactly
when both artifact halves are present, every pre-consult rule passes, and
the consult raises; with an absent artifact, or a consult that returns
normally, the result is never "unknown". -/
theorem classify_total_unknown_boundary (pw : String) (mo : Option Model)
    (so : Option Scaler) :
    predict_strength pw mo so ∈
      (["very_weak", "weak", "medium", "strong", "unknown"] : List String) ∧
    (predict_strength pw mo so = "unknown" ↔
      ∃ m s e, mo = some m ∧ so = some s ∧ pw ≠ "" ∧
        ¬ (extract_features pw).length < 6 ∧ str_lower pw ∉ common_weak ∧
        consult m s (extract_features pw) = Except.error e) := by
  constructor
  · by_cases h1 : pw = ""
    · simp [predict_strength, h1]
    · by_cases h2 : (extract_features pw).length < 6
      · simp [predict_strength, h1, h2]
      · by_cases h3 : str_lower pw ∈ common_weak
        · simp [predict_strength, h1, h2, h3]
        · rcases mo with _ | m <;> rcases so with _ | s
          case neg.some.some =>
            simpa [predict_strength, h1, h2, h3] using
              consult_label_mem (extract_features pw) m s
          all_goals
            simp [predict_strength, h1, h2, h3]
            rcases rule_fallback_cases (extract_features pw) with h | h | h <;> simp [h]
  · constructor
    · intro hu
      by_cases h1 : pw = ""
      · simp [predict_strength, h1] at hu
      · by_cases h2 : (extract_features pw).length < 6
        · simp [predict_strength, h1, h2] at hu
        · by_cases h3 : str_lower pw ∈ common_weak
          · simp [predict_strength, h1, h2, h3] at hu
          · rcases mo with _ | m <;> rcases so with _ | s
            case neg.some.some =>
              obtain ⟨e, he⟩ := (consult_label_unknown_iff _ _ _).mp
                (by simpa [predict_strength, h1, h2, h3] using hu)
              exact ⟨m, s, e, rfl, rfl, h1, h2, h3, he⟩
            all_goals
              simp [predict_strength, h1, h2, h3] at hu
              rcases rule_fallback_cases (extract_features pw) with h | h | h <;>
                simp [h] at hu
    · rintro ⟨m, s, e, hm, hs, hne, hlen, hdl, he⟩
      subst hm; subst hs
      simp only [predict_strength]
      rw [if_neg hne, if_neg hlen, if_neg hdl]
      exact (consult_label_unknown_iff _ _ _).mpr ⟨e, he⟩

/-- C2 witness: with a model that raises, the six-character non-denylisted
password "abcd12" is classified "unknown". -/
theorem classify_total_unknown_boundary_witness :
    predict_strength "abcd12" (some fun _ => Except.error "boom")
        (some fun _ => Except.ok []) = "unknown" :=
  (classify_total_unknown_boundary "abcd12" _ _).2.mpr
    ⟨_, _, "boom", rfl, rfl, by decide, by decide, by decide, rfl⟩
